import Mathlib

set_option autoImplicit false

/-!
Shallow embedding of the attestation broker in
`src/kbs/src/api/src/attestation/mod.rs`: the `Attest` capability trait
(with its default `set_policy` body), the `AttestationService` broker enum
over the three cfg-gated backend configurations, and the broker operations
`create_client`, `verify` and `set_policy`.

The three concrete backends (`coco::builtin::Native`, `coco::grpc::Grpc`,
`intel_trust_authority::IntelTrustAuthority`) and their configuration types
are external collaborators, out of scope for this file's source; the model
is parametric in their configuration types, instance-state types,
constructors and `Attest` implementations.  Rust's `async` is erased
(calls are modelled as deterministic functions, matching the fixed-backend
hypotheses of the properties proved below); `&mut self` receivers are
modelled by explicit state passing.
-/

namespace Kbs

/-- External `kbs_types::Tee`: an enumerated identifier naming the TEE
technology, supplied by the caller and treated as opaque by the broker. -/
inductive Tee where
  | azSnpVtpm
  | sev
  | sgx
  | snp
  | tdx
  | sample
deriving DecidableEq

/-- `anyhow::Error`: a base message, as built by the `anyhow!` macro,
possibly wrapped in added context layers, as added by `.context(...)`. -/
inductive AnyhowError where
  | msg (s : String)
  | context (c : String) (inner : AnyhowError)
deriving DecidableEq

/-- `anyhow::Result<a>`. -/
abbrev AResult (a : Type) : Type := Except AnyhowError a

/-- Whether the outermost layer of an error is an added context layer. -/
def AnyhowError.hasContext : AnyhowError → Bool
  | .context _ _ => true
  | .msg _ => false

/-- The default body of `Attest::set_policy` in `trait Attest`
(mod.rs lines 28-30): it takes `&mut self` but leaves the receiver
untouched, ignores the input bytes, and returns
`Err(anyhow!("Set Policy API is unimplemented"))`. -/
def Attest.setPolicyDefault {σ : Type} (self : σ) (_input : List Nat) :
    AResult Unit × σ :=
  (.error (.msg "Set Policy API is unimplemented"), self)

/-- The two methods of a concrete implementation of `trait Attest`,
in explicit-state-passing form for the `&mut self` receiver.  A backend
that does not override `set_policy` has `Attest.setPolicyDefault` as its
`set_policy` field. -/
structure AttestImpl (σ : Type) where
  verify : σ → Tee → String → String → String → AResult String × σ
  set_policy : σ → List Nat → AResult Unit × σ

/-- The three external backend constructors (`Native::new`, `Grpc::new`,
`IntelTrustAuthority::new`) and the `Attest` implementations of the
instances they build.  These live outside this file's source, so the
broker model is parametric in them. -/
structure Backends (CA CG CI σA σG σI : Type) where
  native_new : CA → AResult σA
  grpc_new : CG → AResult σG
  intel_new : CI → AResult σI
  nativeImpl : AttestImpl σA
  grpcImpl : AttestImpl σG
  intelImpl : AttestImpl σI

/-- `enum AttestationService` (mod.rs lines 45-54): the broker, a closed
enum whose variants each carry exactly the configuration of one backend.
`CA`, `CG`, `CI` stand for the external types `AsConfig`, `GrpcConfig`,
`IntelTrustAuthorityConfig`. -/
inductive AttestationService (CA CG CI : Type) where
  | CoCoASBuiltIn (config : CA)
  | CoCoASgRPC (config : CG)
  | IntelTA (config : CI)

/-- `Box<dyn Attest>` as returned by `create_client`: one of the three
concrete backend instances, tagged by which constructor built it. -/
inductive DynAttest (σA σG σI : Type) where
  | native (st : σA)
  | grpc (st : σG)
  | intelTA (st : σI)

/-- The context message both broker operations attach to a failed
`create_client` call (mod.rs lines 102 and 110). -/
def initContextMsg : String := "attestation service client initialization failed."

section Model

variable {CA CG CI σA σG σI : Type}

/-- Dynamic dispatch of `Attest::verify` on a `Box<dyn Attest>`: run the
concrete backend's `verify` on its state, returning the result and the
possibly mutated instance. -/
def DynAttest.verify (E : Backends CA CG CI σA σG σI) :
    DynAttest σA σG σI → Tee → String → String → String →
      AResult String × DynAttest σA σG σI
  | .native st, tee, nonce, attestation, request_id =>
      let r := E.nativeImpl.verify st tee nonce attestation request_id
      (r.1, .native r.2)
  | .grpc st, tee, nonce, attestation, request_id =>
      let r := E.grpcImpl.verify st tee nonce attestation request_id
      (r.1, .grpc r.2)
  | .intelTA st, tee, nonce, attestation, request_id =>
      let r := E.intelImpl.verify st tee nonce attestation request_id
      (r.1, .intelTA r.2)

/-- Dynamic dispatch of `Attest::set_policy` on a `Box<dyn Attest>`. -/
def DynAttest.set_policy (E : Backends CA CG CI σA σG σI) :
    DynAttest σA σG σI → List Nat → AResult Unit × DynAttest σA σG σI
  | .native st, input =>
      let r := E.nativeImpl.set_policy st input
      (r.1, .native r.2)
  | .grpc st, input =>
      let r := E.grpcImpl.set_policy st input
      (r.1, .grpc r.2)
  | .intelTA st, input =>
      let r := E.intelImpl.set_policy st input
      (r.1, .intelTA r.2)

/-- `AttestationService::new` under cfg `coco-as-builtin` /
`coco-as-builtin-no-verifier` (mod.rs lines 58-61): wrap the config in the
matching variant; infallible. -/
def AttestationService.new_builtin (config : CA) : AttestationService CA CG CI :=
  .CoCoASBuiltIn config

/-- `AttestationService::new` under cfg `coco-as-grpc` (mod.rs lines 64-67). -/
def AttestationService.new_grpc (config : CG) : AttestationService CA CG CI :=
  .CoCoASgRPC config

/-- `AttestationService::new` under cfg `intel-trust-authority-as`
(mod.rs lines 70-73). -/
def AttestationService.new_intel_ta (config : CI) : AttestationService CA CG CI :=
  .IntelTA config

/-- `AttestationService::create_client` (mod.rs lines 75-90): match on the
stored variant, run that backend's constructor on the stored config, and box
the instance; the `?` on the constructor propagates a construction error
unchanged (no context is added here). -/
def AttestationService.create_client (E : Backends CA CG CI σA σG σI) :
    AttestationService CA CG CI → AResult (DynAttest σA σG σI)
  | .CoCoASBuiltIn config => (E.native_new config).map .native
  | .CoCoASgRPC config => (E.grpc_new config).map .grpc
  | .IntelTA config => (E.intel_new config).map .intelTA

/-- `AttestationService::verify` (mod.rs lines 92-104): call `create_client`;
on failure return its error wrapped with `initContextMsg`; on success
delegate to the fresh instance's `verify` and return its result (the mutated
instance is dropped). -/
def AttestationService.verify (E : Backends CA CG CI σA σG σI)
    (self : AttestationService CA CG CI) (tee : Tee)
    (nonce attestation request_id : String) : AResult String :=
  match self.create_client E with
  | .error e => .error (.context initContextMsg e)
  | .ok client => (DynAttest.verify E client tee nonce attestation request_id).1

/-- `AttestationService::set_policy` (mod.rs lines 106-112): same shape as
`verify`, delegating to the instance's `set_policy`. -/
def AttestationService.set_policy (E : Backends CA CG CI σA σG σI)
    (self : AttestationService CA CG CI) (input : List Nat) : AResult Unit :=
  match self.create_client E with
  | .error e => .error (.context initContextMsg e)
  | .ok client => (DynAttest.set_policy E client input).1

end Model

/-- The calls a broker operation makes to its collaborators, in order:
one constructor call, and the delegated backend-method calls with the
exact arguments handed to them. -/
inductive Event where
  | createClient
  | backendVerify (tee : Tee) (nonce attestation request_id : String)
  | backendSetPolicy (input : List Nat)
deriving DecidableEq

/-- Whether an event is the `create_client` constructor call. -/
def Event.isCreateClient : Event → Bool
  | .createClient => true
  | _ => false

/-- Whether an event is a delegated backend-method call. -/
def Event.isBackendCall : Event → Bool
  | .createClient => false
  | _ => true

section Traced

variable {CA CG CI σA σG σI : Type}

/-- `AttestationService::verify`, instrumented with the list of collaborator
calls it performs: `create_client` first, then — only if construction
succeeded — exactly one delegated `verify` carrying the caller's arguments. -/
def AttestationService.verifyTr (E : Backends CA CG CI σA σG σI)
    (self : AttestationService CA CG CI) (tee : Tee)
    (nonce attestation request_id : String) : AResult String × List Event :=
  match self.create_client E with
  | .error e => (.error (.context initContextMsg e), [.createClient])
  | .ok client =>
      ((DynAttest.verify E client tee nonce attestation request_id).1,
        [.createClient, .backendVerify tee nonce attestation request_id])

/-- `AttestationService::set_policy`, instrumented with the list of
collaborator calls it performs. -/
def AttestationService.setPolicyTr (E : Backends CA CG CI σA σG σI)
    (self : AttestationService CA CG CI) (input : List Nat) :
    AResult Unit × List Event :=
  match self.create_client E with
  | .error e => (.error (.context initContextMsg e), [.createClient])
  | .ok client =>
      ((DynAttest.set_policy E client input).1,
        [.createClient, .backendSetPolicy input])

/-- Two sequential `verify` calls through the same shared broker: `verify`
takes `&self`, so the second call sees the identical broker value; the
traces concatenate. -/
def AttestationService.verifyTwiceTr (E : Backends CA CG CI σA σG σI)
    (self : AttestationService CA CG CI) (tee : Tee)
    (nonce attestation request_id : String) :
    (AResult String × AResult String) × List Event :=
  let c1 := self.verifyTr E tee nonce attestation request_id
  let c2 := self.verifyTr E tee nonce attestation request_id
  ((c1.1, c2.1), c1.2 ++ c2.2)

/-- Two sequential `set_policy` calls through the same shared broker. -/
def AttestationService.setPolicyTwiceTr (E : Backends CA CG CI σA σG σI)
    (self : AttestationService CA CG CI) (input : List Nat) :
    (AResult Unit × AResult Unit) × List Event :=
  let c1 := self.setPolicyTr E input
  let c2 := self.setPolicyTr E input
  ((c1.1, c2.1), c1.2 ++ c2.2)

/-- The broker's entire persistent state: the single stored backend
configuration (one variant active per broker). -/
def AttestationService.storedConfig :
    AttestationService CA CG CI → CA ⊕ CG ⊕ CI
  | .CoCoASBuiltIn config => .inl config
  | .CoCoASgRPC config => .inr (.inl config)
  | .IntelTA config => .inr (.inr config)

end Traced

/-- A concrete backend family used to evaluate the theorems below on
closed inputs: every constructor succeeds, `verify` echoes its arguments,
and `set_policy` keeps the trait's default body. -/
def envOk : Backends Nat Nat Nat Nat Nat Nat where
  native_new := fun c => .ok c
  grpc_new := fun c => .ok (c + 1)
  intel_new := fun c => .ok (c + 2)
  nativeImpl :=
    { verify := fun st _tee nonce attestation request_id =>
        (.ok (nonce ++ attestation ++ request_id), st)
      set_policy := fun st input => Attest.setPolicyDefault st input }
  grpcImpl :=
    { verify := fun st _tee nonce attestation request_id =>
        (.ok (nonce ++ attestation ++ request_id), st + 1)
      set_policy := fun st _input => (.ok (), st) }
  intelImpl :=
    { verify := fun st _tee nonce attestation request_id =>
        (.ok (nonce ++ attestation ++ request_id), st)
      set_policy := fun st input => Attest.setPolicyDefault st input }

/-- Like `envOk`, but the built-in backend's constructor fails with the
bare error "boom". -/
def envFail : Backends Nat Nat Nat Nat Nat Nat :=
  { envOk with native_new := fun _ => .error (.msg "boom") }

/-- Like `envOk`, but the built-in backend's `verify` rejects every piece
of evidence with the bare error "bad evidence". -/
def envVerFail : Backends Nat Nat Nat Nat Nat Nat :=
  { envOk with
    nativeImpl :=
      { verify := fun st _tee _nonce _attestation _request_id =>
          (.error (.msg "bad evidence"), st)
        set_policy := fun st input => Attest.setPolicyDefault st input } }

end Kbs

namespace Kbs

section Theorems

variable {CA CG CI σA σG σI : Type}

/-- C1: Broker.verify and Broker.set_policy share the construct-then-delegate
shape: both first run create_client; if construction fails they return the
initialization error wrapped in the added context message and never invoke
the instance's operation (their call trace holds the construction call
only); if it succeeds they delegate to the fresh instance's verify /
set_policy and return that result. -/
theorem broker_construct_then_delegate
    (E : Backends CA CG CI σA σG σI) (b : AttestationService CA CG CI)
    (tee : Tee) (nonce attestation request_id : String) (input : List Nat) :
    (∀ e, b.create_client E = .error e →
      b.verify E tee nonce attestation request_id =
        .error (.context initContextMsg e) ∧
      b.set_policy E input = .error (.context initContextMsg e) ∧
      (b.verifyTr E tee nonce attestation request_id).2 = [.createClient] ∧
      (b.setPolicyTr E input).2 = [.createClient]) ∧
    (∀ c, b.create_client E = .ok c →
      b.verify E tee nonce attestation request_id =
        (DynAttest.verify E c tee nonce attestation request_id).1 ∧
      b.set_policy E input = (DynAttest.set_policy E c input).1) := by
  refine ⟨fun e h => ?_, fun c h => ?_⟩ <;>
    simp [AttestationService.verify, AttestationService.set_policy,
      AttestationService.verifyTr, AttestationService.setPolicyTr, h]

/-- Witness for C1: with the failing constructor, verify returns the wrapped
"boom" error; with the succeeding one, it returns the delegated result. -/
theorem broker_construct_then_delegate_witness :
    (AttestationService.CoCoASBuiltIn 0 : AttestationService Nat Nat Nat).verify
        envFail Tee.sample "n" "ev" "req" =
      .error (.context initContextMsg (.msg "boom")) ∧
    (AttestationService.CoCoASBuiltIn 0 : AttestationService Nat Nat Nat).verify
        envOk Tee.sample "n" "ev" "req" =
      (DynAttest.verify envOk (.native 0) Tee.sample "n" "ev" "req").1 :=
  ⟨((broker_construct_then_delegate envFail (.CoCoASBuiltIn 0) Tee.sample
      "n" "ev" "req" []).1 (.msg "boom") rfl).1,
    ((broker_construct_then_delegate envOk (.CoCoASBuiltIn 0) Tee.sample
      "n" "ev" "req" []).2 (.native 0) rfl).1⟩

/-- C2: a backend that keeps the trait's default set_policy returns, on every
state and every input byte string, exactly the "Set Policy API is
unimplemented" error with its state untouched; it never returns success. -/
theorem default_set_policy_unimplemented {σ : Type} (B : AttestImpl σ)
    (hB : B.set_policy = fun st input => Attest.setPolicyDefault st input)
    (st : σ) (input : List Nat) :
    B.set_policy st input =
      (.error (.msg "Set Policy API is unimplemented"), st) ∧
    ∀ u, (B.set_policy st input).1 ≠ .ok u := by
  refine ⟨?_, fun u h => ?_⟩
  · simp [hB, Attest.setPolicyDefault]
  · rw [hB] at h
    simp [Attest.setPolicyDefault] at h

/-- Witness for C2: the sample built-in backend keeps the default body and
rejects a concrete policy input with the fixed error. -/
theorem default_set_policy_unimplemented_witness :
    (envOk.nativeImpl).set_policy 7 [1, 2, 3] =
      (.error (.msg "Set Policy API is unimplemented"), 7) :=
  (default_set_policy_unimplemented envOk.nativeImpl rfl 7 [1, 2, 3]).1

/-- C9: the default set_policy body is completely independent of the input
bytes: on any two inputs it returns the identical fixed error outcome. -/
theorem default_set_policy_input_independent {σ : Type} (st : σ)
    (a b : List Nat) :
    Attest.setPolicyDefault st a = Attest.setPolicyDefault st b ∧
    (Attest.setPolicyDefault st a).1 =
      .error (.msg "Set Policy API is unimplemented") :=
  ⟨rfl, rfl⟩

/-- C3: when create_client succeeds, the broker returns the delegated verify
result exactly as the backend produced it; in particular a backend error
comes back unchanged, with no context added and no reclassification. -/
theorem backend_error_passthrough
    (E : Backends CA CG CI σA σG σI) (b : AttestationService CA CG CI)
    (tee : Tee) (nonce attestation request_id : String)
    (c : DynAttest σA σG σI) (h : b.create_client E = .ok c) :
    b.verify E tee nonce attestation request_id =
      (DynAttest.verify E c tee nonce attestation request_id).1 ∧
    ∀ e, (DynAttest.verify E c tee nonce attestation request_id).1 = .error e →
      b.verify E tee nonce attestation request_id = .error e := by
  have hv : b.verify E tee nonce attestation request_id =
      (DynAttest.verify E c tee nonce attestation request_id).1 := by
    simp [AttestationService.verify, h]
  exact ⟨hv, fun e he => hv.trans he⟩

/-- Witness for C3: the backend that rejects evidence with the bare error
"bad evidence" has that very error surface unchanged from Broker.verify. -/
theorem backend_error_passthrough_witness :
    (AttestationService.CoCoASBuiltIn 0 : AttestationService Nat Nat Nat).verify
        envVerFail Tee.sample "n" "ev" "req" = .error (.msg "bad evidence") :=
  (backend_error_passthrough envVerFail (.CoCoASBuiltIn 0) Tee.sample
      "n" "ev" "req" (.native 0) rfl).2 (.msg "bad evidence") rfl

end Theorems

end Kbs


namespace Kbs

section MoreTheorems

variable {CA CG CI σA σG σI : Type}

/-- C4 counterexample: with a built-in constructor that fails with the bare
error "boom", create_client itself returns exactly that bare error — its
outermost layer is not a context layer, so create_client does not wrap
construction failures; the initialization context only appears once the
caller (here verify) wraps it. -/
theorem create_client_adds_no_context_cex :
    (AttestationService.CoCoASBuiltIn 0 : AttestationService Nat Nat Nat).create_client
        envFail = .error (.msg "boom") ∧
    (AnyhowError.msg "boom").hasContext = false ∧
    (AttestationService.CoCoASBuiltIn 0 : AttestationService Nat Nat Nat).verify
        envFail Tee.sample "n" "ev" "req" =
      .error (.context initContextMsg (.msg "boom")) :=
  ⟨rfl, rfl, rfl⟩

/-- C4 amended: create_client selects exactly the arm matching the broker's
stored BackendConfig variant and constructs the instance from that
configuration; when construction fails, create_client itself propagates the
constructor's error unchanged, and the context identifying the failure as an
initialization failure is added by the callers verify and set_policy. -/
theorem create_client_selection_and_caller_context
    (E : Backends CA CG CI σA σG σI) (ca : CA) (cg : CG) (ci : CI)
    (tee : Tee) (nonce attestation request_id : String) (input : List Nat) :
    (AttestationService.CoCoASBuiltIn ca : AttestationService CA CG CI).create_client E =
      (E.native_new ca).map .native ∧
    (AttestationService.CoCoASgRPC cg : AttestationService CA CG CI).create_client E =
      (E.grpc_new cg).map .grpc ∧
    (AttestationService.IntelTA ci : AttestationService CA CG CI).create_client E =
      (E.intel_new ci).map .intelTA ∧
    (∀ e, E.native_new ca = .error e →
      (AttestationService.CoCoASBuiltIn ca : AttestationService CA CG CI).create_client E =
        .error e) ∧
    (∀ (b : AttestationService CA CG CI) e, b.create_client E = .error e →
      b.verify E tee nonce attestation request_id =
        .error (.context initContextMsg e) ∧
      b.set_policy E input = .error (.context initContextMsg e)) := by
  refine ⟨rfl, rfl, rfl, fun e h => ?_, fun b e h => ?_⟩
  · simp [AttestationService.create_client, h, Except.map]
  · constructor <;>
      simp [AttestationService.verify, AttestationService.set_policy, h]

/-- Witness for the amended C4: on the failing configuration, create_client
surfaces the bare "boom" error while set_policy surfaces it wrapped. -/
theorem create_client_selection_and_caller_context_witness :
    (AttestationService.CoCoASBuiltIn 0 : AttestationService Nat Nat Nat).create_client
        envFail = .error (.msg "boom") ∧
    (AttestationService.CoCoASBuiltIn 0 : AttestationService Nat Nat Nat).set_policy
        envFail [1] = .error (.context initContextMsg (.msg "boom")) :=
  ⟨(create_client_selection_and_caller_context envFail 0 0 0 Tee.sample
      "n" "ev" "req" [1]).2.2.2.1 (.msg "boom") rfl,
    ((create_client_selection_and_caller_context envFail 0 0 0 Tee.sample
      "n" "ev" "req" [1]).2.2.2.2 (.CoCoASBuiltIn 0) (.msg "boom") rfl).2⟩

/-- C5: each broker operation hands every caller-supplied argument to the
backend unmodified: the call trace of verify is either the bare construction
call or the construction call followed by one backend verify carrying exactly
(tee, nonce, attestation, request_id); likewise set_policy with exactly the
input bytes; and the traced operations compute the same results as the
operations themselves. -/
theorem broker_args_passthrough
    (E : Backends CA CG CI σA σG σI) (b : AttestationService CA CG CI)
    (tee : Tee) (nonce attestation request_id : String) (input : List Nat) :
    ((b.verifyTr E tee nonce attestation request_id).2 = [.createClient] ∨
      (b.verifyTr E tee nonce attestation request_id).2 =
        [.createClient, .backendVerify tee nonce attestation request_id]) ∧
    ((b.setPolicyTr E input).2 = [.createClient] ∨
      (b.setPolicyTr E input).2 = [.createClient, .backendSetPolicy input]) ∧
    (b.verifyTr E tee nonce attestation request_id).1 =
      b.verify E tee nonce attestation request_id ∧
    (b.setPolicyTr E input).1 = b.set_policy E input := by
  cases h : b.create_client E <;>
    simp [AttestationService.verifyTr, AttestationService.setPolicyTr,
      AttestationService.verify, AttestationService.set_policy, h]

/-- C6: the stored configuration is the broker's entire state — brokers with
equal stored configurations are equal — and the operations leave it
untouched: a second call through the same shared broker replays the same
trace, and each of the two calls performs its own fresh construction (two
construction events, no cached or reused instance). -/
theorem broker_config_only_state
    (E : Backends CA CG CI σA σG σI) (b : AttestationService CA CG CI)
    (tee : Tee) (nonce attestation request_id : String) (input : List Nat) :
    (∀ (b1 b2 : AttestationService CA CG CI),
      b1.storedConfig = b2.storedConfig → b1 = b2) ∧
    (b.verifyTwiceTr E tee nonce attestation request_id).2 =
      (b.verifyTr E tee nonce attestation request_id).2 ++
        (b.verifyTr E tee nonce attestation request_id).2 ∧
    (b.setPolicyTwiceTr E input).2 =
      (b.setPolicyTr E input).2 ++ (b.setPolicyTr E input).2 ∧
    (b.verifyTwiceTr E tee nonce attestation request_id).2.countP
        (fun ev => ev.isCreateClient) = 2 ∧
    (b.setPolicyTwiceTr E input).2.countP
        (fun ev => ev.isCreateClient) = 2 := by
  refine ⟨?_, rfl, rfl, ?_, ?_⟩
  · intro b1 b2 h
    cases b1 <;> cases b2 <;>
      simp [AttestationService.storedConfig] at h <;> simp [h]
  · cases h : b.create_client E <;>
      simp [AttestationService.verifyTwiceTr, AttestationService.verifyTr, h,
        List.countP_cons, List.countP_nil, Event.isCreateClient]
  · cases h : b.create_client E <;>
      simp [AttestationService.setPolicyTwiceTr, AttestationService.setPolicyTr, h,
        List.countP_cons, List.countP_nil, Event.isCreateClient]

/-- Witness for C6: the injectivity part applied at a concrete broker pair. -/
theorem broker_config_only_state_witness :
    (AttestationService.CoCoASBuiltIn 5 : AttestationService Nat Nat Nat) =
      .CoCoASBuiltIn 5 :=
  (broker_config_only_state envOk (.CoCoASBuiltIn 0) Tee.sample
      "n" "ev" "req" []).1 (.CoCoASBuiltIn 5) (.CoCoASBuiltIn 5) rfl

/-- C7: each broker operation makes exactly one construction attempt and at
most one delegated backend call — exactly one iff construction succeeded —
and never swallows an error: a failed construction surfaces as the wrapped
initialization error, and a successful construction's delegated result is
returned as is. -/
theorem broker_single_attempt
    (E : Backends CA CG CI σA σG σI) (b : AttestationService CA CG CI)
    (tee : Tee) (nonce attestation request_id : String) (input : List Nat) :
    (b.verifyTr E tee nonce attestation request_id).2.countP
        (fun ev => ev.isCreateClient) = 1 ∧
    (b.setPolicyTr E input).2.countP (fun ev => ev.isCreateClient) = 1 ∧
    (b.verifyTr E tee nonce attestation request_id).2.countP
        (fun ev => ev.isBackendCall) =
      (match b.create_client E with
        | .ok _ => 1
        | .error _ => 0) ∧
    (b.setPolicyTr E input).2.countP (fun ev => ev.isBackendCall) =
      (match b.create_client E with
        | .ok _ => 1
        | .error _ => 0) ∧
    (match b.create_client E with
      | .error e =>
          b.verify E tee nonce attestation request_id =
            .error (.context initContextMsg e) ∧
          b.set_policy E input = .error (.context initContextMsg e)
      | .ok c =>
          b.verify E tee nonce attestation request_id =
            (DynAttest.verify E c tee nonce attestation request_id).1 ∧
          b.set_policy E input = (DynAttest.set_policy E c input).1) := by
  cases h : b.create_client E <;>
    simp [AttestationService.verifyTr, AttestationService.setPolicyTr,
      AttestationService.verify, AttestationService.set_policy, h,
      List.countP_cons, List.countP_nil, Event.isCreateClient,
      Event.isBackendCall]

/-- C8: verify introduces no nondeterminism of its own: with the backend
family fixed (a deterministic function of its own state), two brokers with
the same stored configuration give the same verify outcome on identical
arguments, and two sequential calls through one shared broker give identical
outcomes. -/
theorem verify_deterministic
    (E : Backends CA CG CI σA σG σI) (b1 b2 : AttestationService CA CG CI)
    (tee : Tee) (nonce attestation request_id : String)
    (h : b1.storedConfig = b2.storedConfig) :
    b1.verify E tee nonce attestation request_id =
      b2.verify E tee nonce attestation request_id ∧
    (b1.verifyTwiceTr E tee nonce attestation request_id).1.1 =
      (b1.verifyTwiceTr E tee nonce attestation request_id).1.2 := by
  have hb : b1 = b2 := by
    cases b1 <;> cases b2 <;>
      simp [AttestationService.storedConfig] at h <;> simp [h]
  subst hb
  exact ⟨rfl, rfl⟩

/-- Witness for C8: two syntactically different brokers with the same stored
configuration value give the same verify outcome. -/
theorem verify_deterministic_witness :
    (AttestationService.CoCoASBuiltIn (2 + 3) : AttestationService Nat Nat Nat).verify
        envOk Tee.sample "n" "ev" "req" =
      (AttestationService.CoCoASBuiltIn 5 : AttestationService Nat Nat Nat).verify
        envOk Tee.sample "n" "ev" "req" :=
  (verify_deterministic envOk (.CoCoASBuiltIn (2 + 3)) (.CoCoASBuiltIn 5)
      Tee.sample "n" "ev" "req" rfl).1

/-- C10: each cfg-gated constructor is a total function returning the broker
directly (no Result), stores the given configuration in the matching
variant, and a later create_client runs that variant's backend constructor
on exactly the stored configuration. -/
theorem new_stores_given_config
    (E : Backends CA CG CI σA σG σI) (ca : CA) (cg : CG) (ci : CI) :
    (AttestationService.new_builtin ca : AttestationService CA CG CI) =
      .CoCoASBuiltIn ca ∧
    (AttestationService.new_grpc cg : AttestationService CA CG CI) =
      .CoCoASgRPC cg ∧
    (AttestationService.new_intel_ta ci : AttestationService CA CG CI) =
      .IntelTA ci ∧
    (AttestationService.new_builtin ca : AttestationService CA CG CI).create_client E =
      (E.native_new ca).map .native ∧
    (AttestationService.new_grpc cg : AttestationService CA CG CI).create_client E =
      (E.grpc_new cg).map .grpc ∧
    (AttestationService.new_intel_ta ci : AttestationService CA CG CI).create_client E =
      (E.intel_new ci).map .intelTA :=
  ⟨rfl, rfl, rfl, rfl, rfl, rfl⟩

end MoreTheorems

end Kbs
